import Mathlib

/-!
Verification of the Hamlib ID-5100 device-profile adapter
(`src/rigs/icom/id5100.c`): a shallow embedding of its mode codec,
VFO selector and split coordinator, with proofs of the spec's claims.

External collaborators (the CI-V transaction engine `icom_transaction`
and the generic function setter `icom_set_func`) are modelled by an
oracle assigning a return code to each transaction; the adapter's own
mutable state (`struct icom_priv_data` fields `dual_watch` and
`x25cmdfails`) is passed explicitly and returned updated, together
with the list of transactions issued, in order.
-/

/-- Hamlib return code `RIG_OK`. -/
def RIG_OK : Int := 0

/-- Hamlib error code `RIG_EINVAL` (functions return its negation). -/
def RIG_EINVAL : Int := 1

/-- Hamlib error code `RIG_ETIMEOUT` (functions return its negation). -/
def RIG_ETIMEOUT : Int := 5

/-- CI-V command `C_SET_VFO` (0x07). -/
def C_SET_VFO : Nat := 0x07

/-- CI-V command `C_SET_MODE` (0x06). -/
def C_SET_MODE : Nat := 0x06

/-- CI-V command `C_RD_MODE` (0x04). -/
def C_RD_MODE : Nat := 0x04

/-- CI-V sub-command `S_MAIN` (0xD0): select the Main physical receiver. -/
def S_MAIN : Nat := 0xD0

/-- CI-V sub-command `S_SUB` (0xD1): select the Sub physical receiver. -/
def S_SUB : Nat := 0xD1

/-- Hamlib function identifier `RIG_FUNC_DUAL_WATCH` (a distinguished
bit of the `setting_t` bitmask; its numeric value is irrelevant here,
only its identity). -/
def RIG_FUNC_DUAL_WATCH : Nat := 33

/-- Logical VFO values (`vfo_t`).  `A`, `B`, `Main`, `Sub` and `Curr`
are the values the adapter tests for explicitly; `Mem n` stands for
any other `vfo_t` bit pattern (e.g. a memory VFO), indexed so that the
embedding stays total over the C type's value space. -/
inductive Vfo where
  | A
  | B
  | Main
  | Sub
  | Curr
  | Mem (n : Nat)
  deriving DecidableEq

/-- Operating modes (`rmode_t`).  The five modes of `ID5100_MODES`
are named; `other n` stands for any other `rmode_t` bit pattern. -/
inductive Rmode where
  | AM
  | AMN
  | FM
  | FMN
  | DSTAR
  | other (n : Nat)
  deriving DecidableEq

/-- One request to an external collaborator:
`setFunc f v` is `icom_set_func(rig, RIG_VFO_CURR, f, v)`;
`transact c sc payload` is `icom_transaction(rig, c, sc, payload, ...)`. -/
inductive Transaction where
  | setFunc (funcId : Nat) (value : Nat)
  | transact (cmd : Nat) (subcmd : Nat) (payload : List Nat)
  deriving DecidableEq

/-- The adapter's mutable per-session state: the `dual_watch` and
`x25cmdfails` fields of `struct icom_priv_data` (C `int`s holding 0/1). -/
structure IcomPriv where
  dual_watch : Bool
  x25cmdfails : Bool
  deriving DecidableEq

/-- Outcome of a stateful adapter operation: the C return value, the
updated private state, and the transactions issued, in order. -/
structure SetVfoResult where
  retval : Int
  priv : IcomPriv
  trace : List Transaction
  deriving DecidableEq

/-- An oracle fixing the behaviour of the external transaction engine:
the return code of each possible transaction. -/
def Oracle : Type := Transaction → Int

/-- The dual-watch toggle transaction issued by `id5100_set_vfo`:
`icom_set_func(rig, RIG_VFO_CURR, RIG_FUNC_DUAL_WATCH, b)`. -/
def dwToggleTx (b : Bool) : Transaction :=
  Transaction.setFunc RIG_FUNC_DUAL_WATCH (if b then 1 else 0)

/-- The final VFO-select transaction of `id5100_set_vfo`:
`icom_transaction(rig, C_SET_VFO, myvfo, NULL, 0, ...)` (empty payload). -/
def selectTx (myvfo : Nat) : Transaction :=
  Transaction.transact C_SET_VFO myvfo []

/-- Lines 186-199 of `id5100_set_vfo`: compute `myvfo` (`S_SUB` for
`RIG_VFO_B`/`RIG_VFO_SUB`, else the initial `S_MAIN`), issue the
select transaction and return its result. -/
def id5100_select_tail (oracle : Oracle) (priv : IcomPriv) (v : Vfo)
    (tr : List Transaction) : SetVfoResult :=
  let myvfo := if v = Vfo.B ∨ v = Vfo.Sub then S_SUB else S_MAIN
  let t := selectTx myvfo
  ⟨oracle t, priv, tr ++ [t]⟩

/-- `id5100_set_vfo` (id5100.c lines 139-200).  Resolves `RIG_VFO_CURR`
to the session's current VFO; for A/B sets `x25cmdfails` and toggles
dual watch off if it was on (aborting on toggle failure); for Main/Sub
sets `x25cmdfails` and toggles dual watch on if it was off (aborting on
toggle failure); then issues the VFO-select transaction and returns its
result. -/
def id5100_set_vfo (oracle : Oracle) (current_vfo : Vfo)
    (priv : IcomPriv) (vfo : Vfo) : SetVfoResult :=
  let v := if vfo = Vfo.Curr then current_vfo else vfo
  match v with
  | Vfo.A | Vfo.B =>
    let priv1 : IcomPriv := ⟨priv.dual_watch, true⟩
    if priv1.dual_watch then
      let r := oracle (dwToggleTx false)
      if r = RIG_OK then
        id5100_select_tail oracle ⟨false, true⟩ v [dwToggleTx false]
      else
        ⟨r, priv1, [dwToggleTx false]⟩
    else
      id5100_select_tail oracle priv1 v []
  | Vfo.Main | Vfo.Sub =>
    let priv1 : IcomPriv := ⟨priv.dual_watch, true⟩
    if priv1.dual_watch = false then
      let r := oracle (dwToggleTx true)
      if r = RIG_OK then
        id5100_select_tail oracle ⟨true, true⟩ v [dwToggleTx true]
      else
        ⟨r, priv1, [dwToggleTx true]⟩
    else
      id5100_select_tail oracle priv1 v []
  | _ =>
    id5100_select_tail oracle priv v []

/-- `id5100_set_split_vfo` (id5100.c lines 202-223).  With
`tx_vfo ∈ {RIG_VFO_A, RIG_VFO_MAIN}` it calls
`rig_set_vfo(rig, RIG_VFO_SUB)` — which dispatches to the backend's
`id5100_set_vfo` — and returns its result; otherwise it returns
`-RIG_EINVAL` without issuing anything.  The `split` argument is a C
`split_t`, modelled as a `Nat`; the body never reads it. -/
def id5100_set_split_vfo (oracle : Oracle) (current_vfo : Vfo)
    (priv : IcomPriv) (vfo : Vfo) (split : Nat) (tx_vfo : Vfo) :
    SetVfoResult :=
  if tx_vfo = Vfo.A ∨ tx_vfo = Vfo.Main then
    id5100_set_vfo oracle current_vfo priv Vfo.Sub
  else
    ⟨-RIG_EINVAL, priv, []⟩

/-- The mode switch of `id5100_set_mode` (id5100.c lines 82-97):
`(icmode, modebuf)` per supported mode, `none` for the default branch. -/
def id5100_mode_codes : Rmode → Option (Nat × Nat)
  | Rmode.AM => some (2, 1)
  | Rmode.AMN => some (2, 2)
  | Rmode.FM => some (5, 1)
  | Rmode.FMN => some (5, 2)
  | Rmode.DSTAR => some (0x17, 1)
  | Rmode.other _ => none

/-- `id5100_set_mode` (id5100.c lines 74-106): unknown modes return
`-RIG_EINVAL` with no transaction; known modes issue one
`C_SET_MODE` transaction with sub-command `icmode` and the one-byte
payload `modebuf`, returning its result. -/
def id5100_set_mode (oracle : Oracle) (mode : Rmode) :
    Int × List Transaction :=
  match id5100_mode_codes mode with
  | none => (-RIG_EINVAL, [])
  | some (icmode, modebuf) =>
    let t := Transaction.transact C_SET_MODE icmode [modebuf]
    (oracle t, [t])

/-- The decode switch of `id5100_get_mode` (id5100.c lines 121-134),
over the response bytes `modebuf[1]` and `modebuf[2]`.  The switch has
no default case: an unmatched `modebuf[1]` leaves the out-parameters
`*mode` and `*width` at their prior values `mode0`, `width0`. -/
def id5100_decode_mode (b1 b2 : Nat) (mode0 : Rmode) (width0 : Int) :
    Rmode × Int :=
  if b1 = 2 then
    (if b2 = 1 then Rmode.AM else Rmode.AMN,
     if b2 = 1 then 12000 else 6000)
  else if b1 = 5 then
    (if b2 = 1 then Rmode.FM else Rmode.FMN,
     if b2 = 1 then 10000 else 5000)
  else if b1 = 0x17 then
    (Rmode.DSTAR, 6000)
  else
    (mode0, width0)

/-- Outcome of `id5100_get_mode`: the return value and the final values
of the `*mode` / `*width` out-parameters. -/
structure GetModeResult where
  retval : Int
  mode : Rmode
  width : Int
  deriving DecidableEq

/-- `id5100_get_mode` (id5100.c lines 108-137): issues `C_RD_MODE`
(here: its outcome is the given return code and response bytes
`b1 = modebuf[1]`, `b2 = modebuf[2]`); on transaction failure returns
that code with the out-parameters untouched; otherwise runs the decode
switch and returns `RIG_OK`. -/
def id5100_get_mode (rd_retval : Int) (b1 b2 : Nat)
    (mode0 : Rmode) (width0 : Int) : GetModeResult :=
  if rd_retval ≠ RIG_OK then
    ⟨rd_retval, mode0, width0⟩
  else
    let p := id5100_decode_mode b1 b2 mode0 width0
    ⟨RIG_OK, p.1, p.2⟩

/-- Number of function-toggle (`icom_set_func`) calls in a trace. -/
def toggleCount (tr : List Transaction) : Nat :=
  (tr.filter fun t => match t with
    | Transaction.setFunc _ _ => true
    | _ => false).length

/-- Number of `icom_transaction` calls in a trace. -/
def transactCount (tr : List Transaction) : Nat :=
  (tr.filter fun t => match t with
    | Transaction.transact _ _ _ => true
    | _ => false).length

/-- The dual-watch state required for a VFO per the selector's policy:
`true` for the dual-path group {Main, Sub}, `false` otherwise. -/
def requiredDW : Vfo → Bool
  | Vfo.Main | Vfo.Sub => true
  | _ => false

/-- The physical selector code for a VFO: `S_SUB` for {B, Sub},
`S_MAIN` otherwise. -/
def physSel (v : Vfo) : Nat :=
  if v = Vfo.B ∨ v = Vfo.Sub then S_SUB else S_MAIN

/-- An operation of this adapter core, for stating invariants over
operation sequences. -/
inductive Op where
  | setMode (mode : Rmode)
  | getMode (rd_retval : Int) (b1 b2 : Nat)
  | setVfo (vfo : Vfo)
  | setSplitVfo (vfo : Vfo) (split : Nat) (tx_vfo : Vfo)

/-- Effect of one operation on the adapter's private state
(`id5100_set_mode` and `id5100_get_mode` never touch it). -/
def runOp (oracle : Oracle) (current_vfo : Vfo) (priv : IcomPriv) :
    Op → IcomPriv
  | Op.setMode _ => priv
  | Op.getMode _ _ _ => priv
  | Op.setVfo v => (id5100_set_vfo oracle current_vfo priv v).priv
  | Op.setSplitVfo v s tx =>
    (id5100_set_split_vfo oracle current_vfo priv v s tx).priv

/-- Effect of a sequence of operations on the private state. -/
def runOps (oracle : Oracle) (current_vfo : Vfo) (priv : IcomPriv) :
    List Op → IcomPriv
  | [] => priv
  | op :: ops => runOps oracle current_vfo (runOp oracle current_vfo priv op) ops

/-- An oracle under which every transaction succeeds. -/
def oracleOK : Oracle := fun _ => RIG_OK

/-- An oracle under which function toggles time out and everything
else succeeds. -/
def oracleToggleFails : Oracle := fun t =>
  match t with
  | Transaction.setFunc _ _ => -RIG_ETIMEOUT
  | _ => RIG_OK

example : id5100_set_vfo oracleOK Vfo.A ⟨false, false⟩ Vfo.Main =
    ⟨0, ⟨true, true⟩, [dwToggleTx true, selectTx S_MAIN]⟩ := by decide

example : id5100_set_vfo oracleToggleFails Vfo.A ⟨true, false⟩ Vfo.A =
    ⟨-5, ⟨true, true⟩, [dwToggleTx false]⟩ := by decide

example : id5100_get_mode 0 5 2 (Rmode.other 0) 0 =
    ⟨0, Rmode.FMN, 5000⟩ := by decide

example : id5100_get_mode 0 3 1 Rmode.FM 10000 =
    ⟨0, Rmode.FM, 10000⟩ := by decide

lemma set_vfo_A_on (oracle : Oracle) (cv : Vfo) (x25 : Bool) :
    id5100_set_vfo oracle cv ⟨true, x25⟩ Vfo.A =
      if oracle (dwToggleTx false) = RIG_OK then
        ⟨oracle (selectTx S_MAIN), ⟨false, true⟩,
          [dwToggleTx false, selectTx S_MAIN]⟩
      else
        ⟨oracle (dwToggleTx false), ⟨true, true⟩, [dwToggleTx false]⟩ := by
  simp [id5100_set_vfo, id5100_select_tail]

lemma set_vfo_A_off (oracle : Oracle) (cv : Vfo) (x25 : Bool) :
    id5100_set_vfo oracle cv ⟨false, x25⟩ Vfo.A =
      ⟨oracle (selectTx S_MAIN), ⟨false, true⟩, [selectTx S_MAIN]⟩ := by
  simp [id5100_set_vfo, id5100_select_tail]

lemma set_vfo_B_on (oracle : Oracle) (cv : Vfo) (x25 : Bool) :
    id5100_set_vfo oracle cv ⟨true, x25⟩ Vfo.B =
      if oracle (dwToggleTx false) = RIG_OK then
        ⟨oracle (selectTx S_SUB), ⟨false, true⟩,
          [dwToggleTx false, selectTx S_SUB]⟩
      else
        ⟨oracle (dwToggleTx false), ⟨true, true⟩, [dwToggleTx false]⟩ := by
  simp [id5100_set_vfo, id5100_select_tail]

lemma set_vfo_B_off (oracle : Oracle) (cv : Vfo) (x25 : Bool) :
    id5100_set_vfo oracle cv ⟨false, x25⟩ Vfo.B =
      ⟨oracle (selectTx S_SUB), ⟨false, true⟩, [selectTx S_SUB]⟩ := by
  simp [id5100_set_vfo, id5100_select_tail]

lemma set_vfo_Main_off (oracle : Oracle) (cv : Vfo) (x25 : Bool) :
    id5100_set_vfo oracle cv ⟨false, x25⟩ Vfo.Main =
      if oracle (dwToggleTx true) = RIG_OK then
        ⟨oracle (selectTx S_MAIN), ⟨true, true⟩,
          [dwToggleTx true, selectTx S_MAIN]⟩
      else
        ⟨oracle (dwToggleTx true), ⟨false, true⟩, [dwToggleTx true]⟩ := by
  simp [id5100_set_vfo, id5100_select_tail]

lemma set_vfo_Main_on (oracle : Oracle) (cv : Vfo) (x25 : Bool) :
    id5100_set_vfo oracle cv ⟨true, x25⟩ Vfo.Main =
      ⟨oracle (selectTx S_MAIN), ⟨true, true⟩, [selectTx S_MAIN]⟩ := by
  simp [id5100_set_vfo, id5100_select_tail]

lemma set_vfo_Sub_off (oracle : Oracle) (cv : Vfo) (x25 : Bool) :
    id5100_set_vfo oracle cv ⟨false, x25⟩ Vfo.Sub =
      if oracle (dwToggleTx true) = RIG_OK then
        ⟨oracle (selectTx S_SUB), ⟨true, true⟩,
          [dwToggleTx true, selectTx S_SUB]⟩
      else
        ⟨oracle (dwToggleTx true), ⟨false, true⟩, [dwToggleTx true]⟩ := by
  simp [id5100_set_vfo, id5100_select_tail]

lemma set_vfo_Sub_on (oracle : Oracle) (cv : Vfo) (x25 : Bool) :
    id5100_set_vfo oracle cv ⟨true, x25⟩ Vfo.Sub =
      ⟨oracle (selectTx S_SUB), ⟨true, true⟩, [selectTx S_SUB]⟩ := by
  simp [id5100_set_vfo, id5100_select_tail]

lemma set_vfo_Mem (oracle : Oracle) (cv : Vfo) (priv : IcomPriv) (n : Nat) :
    id5100_set_vfo oracle cv priv (Vfo.Mem n) =
      ⟨oracle (selectTx S_MAIN), priv, [selectTx S_MAIN]⟩ := by
  simp [id5100_set_vfo, id5100_select_tail]

/-- C1: for every starting dual-watch value and every requested VFO in
{A, B, Main, Sub}, a group/dual-watch mismatch puts exactly one
dual-watch toggle transaction (with the group's required value) at the
head of the issued-transaction trace, before any select transaction;
a matching group issues zero toggle transactions. -/
theorem id5100_c1_toggle_discipline (oracle : Oracle) (cv : Vfo)
    (priv : IcomPriv) (vfo : Vfo)
    (hv : vfo = Vfo.A ∨ vfo = Vfo.B ∨ vfo = Vfo.Main ∨ vfo = Vfo.Sub) :
    (requiredDW vfo ≠ priv.dual_watch →
      toggleCount (id5100_set_vfo oracle cv priv vfo).trace = 1 ∧
      (id5100_set_vfo oracle cv priv vfo).trace.head? =
        some (dwToggleTx (requiredDW vfo))) ∧
    (requiredDW vfo = priv.dual_watch →
      toggleCount (id5100_set_vfo oracle cv priv vfo).trace = 0) := by
  obtain ⟨dw, x25⟩ := priv
  rcases hv with rfl | rfl | rfl | rfl <;> cases dw <;>
    refine ⟨fun h => ?_, fun h => ?_⟩ <;>
    simp only [requiredDW] at h <;>
    first
      | exact absurd rfl h
      | exact absurd h (by decide)
      | (rw [set_vfo_A_on] <;> split <;> exact ⟨rfl, rfl⟩)
      | (rw [set_vfo_B_on] <;> split <;> exact ⟨rfl, rfl⟩)
      | (rw [set_vfo_Main_off] <;> split <;> exact ⟨rfl, rfl⟩)
      | (rw [set_vfo_Sub_off] <;> split <;> exact ⟨rfl, rfl⟩)
      | (rw [set_vfo_A_off]; rfl)
      | (rw [set_vfo_B_off]; rfl)
      | (rw [set_vfo_Main_on]; rfl)
      | (rw [set_vfo_Sub_on]; rfl)

/-- Witness for C1: selecting Main with dual watch off issues exactly
one toggle, first in the trace, and it is the toggle-on request. -/
theorem id5100_c1_toggle_discipline_witness :
    toggleCount (id5100_set_vfo oracleOK Vfo.A ⟨false, false⟩ Vfo.Main).trace = 1 ∧
    (id5100_set_vfo oracleOK Vfo.A ⟨false, false⟩ Vfo.Main).trace.head? =
      some (dwToggleTx (requiredDW Vfo.Main)) :=
  (id5100_c1_toggle_discipline oracleOK Vfo.A ⟨false, false⟩ Vfo.Main
    (Or.inr (Or.inr (Or.inl rfl)))).1 (by decide)

/-- C2: for every requested VFO in {A, B, Main, Sub}, if the dual-watch
state must change and the toggle transaction fails, the operation
returns the toggle's failure code, issues no `icom_transaction` call
(so no VFO select), and leaves `dual_watch` at its prior value. -/
theorem id5100_c2_toggle_failure_aborts (oracle : Oracle) (cv : Vfo)
    (priv : IcomPriv) (vfo : Vfo)
    (hv : vfo = Vfo.A ∨ vfo = Vfo.B ∨ vfo = Vfo.Main ∨ vfo = Vfo.Sub)
    (hmis : requiredDW vfo ≠ priv.dual_watch)
    (hfail : oracle (dwToggleTx (requiredDW vfo)) ≠ RIG_OK) :
    (id5100_set_vfo oracle cv priv vfo).retval =
      oracle (dwToggleTx (requiredDW vfo)) ∧
    transactCount (id5100_set_vfo oracle cv priv vfo).trace = 0 ∧
    (id5100_set_vfo oracle cv priv vfo).priv.dual_watch =
      priv.dual_watch := by
  obtain ⟨dw, x25⟩ := priv
  rcases hv with rfl | rfl | rfl | rfl <;> cases dw <;>
    simp only [requiredDW] at hmis hfail ⊢ <;>
    first
      | exact absurd rfl hmis
      | (rw [set_vfo_A_on, if_neg hfail]; exact ⟨rfl, rfl, rfl⟩)
      | (rw [set_vfo_B_on, if_neg hfail]; exact ⟨rfl, rfl, rfl⟩)
      | (rw [set_vfo_Main_off, if_neg hfail]; exact ⟨rfl, rfl, rfl⟩)
      | (rw [set_vfo_Sub_off, if_neg hfail]; exact ⟨rfl, rfl, rfl⟩)

/-- Witness for C2: selecting A with dual watch on, under an oracle
whose toggles time out, returns the timeout, issues no select, and
keeps `dual_watch = true`. -/
theorem id5100_c2_toggle_failure_aborts_witness :
    (id5100_set_vfo oracleToggleFails Vfo.A ⟨true, false⟩ Vfo.A).retval =
      oracleToggleFails (dwToggleTx (requiredDW Vfo.A)) ∧
    transactCount
      (id5100_set_vfo oracleToggleFails Vfo.A ⟨true, false⟩ Vfo.A).trace = 0 ∧
    (id5100_set_vfo oracleToggleFails Vfo.A ⟨true, false⟩ Vfo.A).priv.dual_watch =
      true :=
  id5100_c2_toggle_failure_aborts oracleToggleFails Vfo.A ⟨true, false⟩ Vfo.A
    (Or.inl rfl) (by decide) (by decide)

/-- C3: for each of the five operating modes, feeding the
(mode code, sub-code) pair produced by the set-mode switch back through
get-mode yields the same mode together with its fixed bandwidth
(AM 12000, AM-narrow 6000, FM 10000, FM-narrow 5000, D-STAR 6000),
whatever the out-parameters held before; in particular
decode(5, 2) = (FM-narrow, 5000). -/
theorem id5100_c3_mode_roundtrip (m0 : Rmode) (w0 : Int) :
    id5100_mode_codes Rmode.AM = some (2, 1) ∧
    id5100_get_mode RIG_OK 2 1 m0 w0 = ⟨RIG_OK, Rmode.AM, 12000⟩ ∧
    id5100_mode_codes Rmode.AMN = some (2, 2) ∧
    id5100_get_mode RIG_OK 2 2 m0 w0 = ⟨RIG_OK, Rmode.AMN, 6000⟩ ∧
    id5100_mode_codes Rmode.FM = some (5, 1) ∧
    id5100_get_mode RIG_OK 5 1 m0 w0 = ⟨RIG_OK, Rmode.FM, 10000⟩ ∧
    id5100_mode_codes Rmode.FMN = some (5, 2) ∧
    id5100_get_mode RIG_OK 5 2 m0 w0 = ⟨RIG_OK, Rmode.FMN, 5000⟩ ∧
    id5100_mode_codes Rmode.DSTAR = some (0x17, 1) ∧
    id5100_get_mode RIG_OK 0x17 1 m0 w0 = ⟨RIG_OK, Rmode.DSTAR, 6000⟩ :=
  ⟨rfl, rfl, rfl, rfl, rfl, rfl, rfl, rfl, rfl, rfl⟩

/-- C4 counterexample: the pair (3, 1) is outside the canonical table,
yet get-mode returns `RIG_OK` (success) and leaves the out-parameters
at their prior values instead of failing with an error code. -/
theorem id5100_c4_counterexample :
    (id5100_get_mode RIG_OK 3 1 Rmode.FM 10000).retval = RIG_OK ∧
    (id5100_get_mode RIG_OK 3 1 Rmode.FM 10000).mode = Rmode.FM ∧
    (id5100_get_mode RIG_OK 3 1 Rmode.FM 10000).width = 10000 := by
  decide

/-- C4 (amended): for a mode code outside {2, 5, 0x17}, get-mode does
not fail — it returns `RIG_OK` with the `*mode` / `*width`
out-parameters unchanged; and for mode codes 2 and 5, any sub-code
other than 1 is decoded (successfully) as the narrow family variant. -/
theorem id5100_c4_unknown_code_behaviour (b1 b2 : Nat) (m0 : Rmode)
    (w0 : Int) :
    (b1 ≠ 2 → b1 ≠ 5 → b1 ≠ 0x17 →
      id5100_get_mode RIG_OK b1 b2 m0 w0 = ⟨RIG_OK, m0, w0⟩) ∧
    (b2 ≠ 1 →
      id5100_get_mode RIG_OK 2 b2 m0 w0 = ⟨RIG_OK, Rmode.AMN, 6000⟩ ∧
      id5100_get_mode RIG_OK 5 b2 m0 w0 = ⟨RIG_OK, Rmode.FMN, 5000⟩) := by
  constructor
  · intro h2 h5 h17
    simp [id5100_get_mode, id5100_decode_mode, h2, h5, h17]
  · intro h1
    constructor <;> simp [id5100_get_mode, id5100_decode_mode, h1]

/-- Witness for the amended C4: code 3 is returned unchanged with
success, and (2, 3) / (5, 3) decode to the narrow variants. -/
theorem id5100_c4_unknown_code_behaviour_witness :
    (id5100_get_mode RIG_OK 3 4 Rmode.FM 10000 =
      ⟨RIG_OK, Rmode.FM, 10000⟩) ∧
    (id5100_get_mode RIG_OK 2 3 Rmode.FM 10000 =
      ⟨RIG_OK, Rmode.AMN, 6000⟩ ∧
     id5100_get_mode RIG_OK 5 3 Rmode.FM 10000 =
      ⟨RIG_OK, Rmode.FMN, 5000⟩) :=
  ⟨(id5100_c4_unknown_code_behaviour 3 4 Rmode.FM 10000).1
      (by decide) (by decide) (by decide),
   (id5100_c4_unknown_code_behaviour 2 3 Rmode.FM 10000).2 (by decide) |>.1,
   (id5100_c4_unknown_code_behaviour 5 3 Rmode.FM 10000).2 (by decide) |>.2⟩

/-- C5: a split request with transmit VFO A or Main is exactly a
VFO-select of Sub (same result, same transactions, same final state);
any other transmit VFO yields `-RIG_EINVAL` with no transactions and
the state unchanged. -/
theorem id5100_c5_split_policy (oracle : Oracle) (cv : Vfo)
    (priv : IcomPriv) (vfo : Vfo) (split : Nat) (tx_vfo : Vfo) :
    ((tx_vfo = Vfo.A ∨ tx_vfo = Vfo.Main) →
      id5100_set_split_vfo oracle cv priv vfo split tx_vfo =
        id5100_set_vfo oracle cv priv Vfo.Sub) ∧
    (tx_vfo ≠ Vfo.A → tx_vfo ≠ Vfo.Main →
      id5100_set_split_vfo oracle cv priv vfo split tx_vfo =
        ⟨-RIG_EINVAL, priv, []⟩) := by
  constructor
  · intro h
    simp [id5100_set_split_vfo, h]
  · intro hA hM
    simp [id5100_set_split_vfo, hA, hM]

/-- Witness for C5: transmit VFO Sub is rejected with `-RIG_EINVAL`
and no transactions; transmit VFO Main delegates to select-Sub. -/
theorem id5100_c5_split_policy_witness :
    (id5100_set_split_vfo oracleOK Vfo.A ⟨false, false⟩ Vfo.A 1 Vfo.Sub =
      ⟨-RIG_EINVAL, ⟨false, false⟩, []⟩) ∧
    (id5100_set_split_vfo oracleOK Vfo.A ⟨false, false⟩ Vfo.A 1 Vfo.Main =
      id5100_set_vfo oracleOK Vfo.A ⟨false, false⟩ Vfo.Sub) :=
  ⟨(id5100_c5_split_policy oracleOK Vfo.A ⟨false, false⟩ Vfo.A 1 Vfo.Sub).2
      (by decide) (by decide),
   (id5100_c5_split_policy oracleOK Vfo.A ⟨false, false⟩ Vfo.A 1 Vfo.Main).1
      (Or.inr rfl)⟩

lemma set_vfo_Curr (oracle : Oracle) (cv : Vfo) (priv : IcomPriv) :
    id5100_set_vfo oracle cv priv Vfo.Curr =
      id5100_set_vfo oracle cv priv cv := by
  cases cv <;> rfl

lemma set_vfo_x25_cases (oracle : Oracle) (cv : Vfo) (dw x25 : Bool)
    (v : Vfo) :
    (id5100_set_vfo oracle cv ⟨dw, x25⟩ v).priv = ⟨dw, x25⟩ ∨
    (id5100_set_vfo oracle cv ⟨dw, x25⟩ v).priv.x25cmdfails = true := by
  have key : ∀ w : Vfo, w ≠ Vfo.Curr →
      (id5100_set_vfo oracle cv ⟨dw, x25⟩ w).priv = ⟨dw, x25⟩ ∨
      (id5100_set_vfo oracle cv ⟨dw, x25⟩ w).priv.x25cmdfails = true := by
    intro w hw
    cases w <;> cases dw <;>
      first
        | exact absurd rfl hw
        | (rw [set_vfo_A_on]; split <;> right <;> rfl)
        | (rw [set_vfo_B_on]; split <;> right <;> rfl)
        | (rw [set_vfo_Main_off]; split <;> right <;> rfl)
        | (rw [set_vfo_Sub_off]; split <;> right <;> rfl)
        | (rw [set_vfo_A_off]; right; rfl)
        | (rw [set_vfo_B_off]; right; rfl)
        | (rw [set_vfo_Main_on]; right; rfl)
        | (rw [set_vfo_Sub_on]; right; rfl)
        | (rw [set_vfo_Mem]; left; rfl)
  cases v with
  | Curr =>
    rw [set_vfo_Curr]
    cases cv with
    | Curr => left; rfl
    | A => exact key Vfo.A (fun h => Vfo.noConfusion h)
    | B => exact key Vfo.B (fun h => Vfo.noConfusion h)
    | Main => exact key Vfo.Main (fun h => Vfo.noConfusion h)
    | Sub => exact key Vfo.Sub (fun h => Vfo.noConfusion h)
    | Mem n => exact key (Vfo.Mem n) (fun h => Vfo.noConfusion h)
  | A => exact key Vfo.A (fun h => Vfo.noConfusion h)
  | B => exact key Vfo.B (fun h => Vfo.noConfusion h)
  | Main => exact key Vfo.Main (fun h => Vfo.noConfusion h)
  | Sub => exact key Vfo.Sub (fun h => Vfo.noConfusion h)
  | Mem n => exact key (Vfo.Mem n) (fun h => Vfo.noConfusion h)

lemma runOp_x25_mono (oracle : Oracle) (cv : Vfo) (priv : IcomPriv)
    (op : Op) (h : priv.x25cmdfails = true) :
    (runOp oracle cv priv op).x25cmdfails = true := by
  obtain ⟨dw, x25⟩ := priv
  cases op with
  | setMode m => exact h
  | getMode r b1 b2 => exact h
  | setVfo v =>
    rcases set_vfo_x25_cases oracle cv dw x25 v with he | ht
    · show (id5100_set_vfo oracle cv ⟨dw, x25⟩ v).priv.x25cmdfails = true
      rw [he]; exact h
    · exact ht
  | setSplitVfo v s tx =>
    show (id5100_set_split_vfo oracle cv ⟨dw, x25⟩ v s tx).priv.x25cmdfails = true
    rw [id5100_set_split_vfo]
    split
    · rcases set_vfo_x25_cases oracle cv dw x25 Vfo.Sub with he | ht
      · rw [he]; exact h
      · exact ht
    · exact h

/-- C6: the `x25cmdfails` flag is set on every VFO selection in
{A, B, Main, Sub} regardless of group (so in particular on every
successful one), and no operation of the adapter — set-mode, get-mode,
set-vfo or set-split-vfo, in any sequence — ever resets it: once true
it stays true. -/
theorem id5100_c6_x25_monotone (oracle : Oracle) (cv : Vfo) :
    (∀ (priv : IcomPriv) (vfo : Vfo),
      (vfo = Vfo.A ∨ vfo = Vfo.B ∨ vfo = Vfo.Main ∨ vfo = Vfo.Sub) →
      (id5100_set_vfo oracle cv priv vfo).priv.x25cmdfails = true) ∧
    (∀ (priv : IcomPriv) (ops : List Op), priv.x25cmdfails = true →
      (runOps oracle cv priv ops).x25cmdfails = true) := by
  constructor
  · intro priv vfo hv
    obtain ⟨dw, x25⟩ := priv
    rcases hv with rfl | rfl | rfl | rfl <;> cases dw <;>
      first
        | (rw [set_vfo_A_on]; split <;> try rfl)
        | (rw [set_vfo_B_on]; split <;> try rfl)
        | (rw [set_vfo_Main_off]; split <;> try rfl)
        | (rw [set_vfo_Sub_off]; split <;> try rfl)
        | (rw [set_vfo_A_off]; try rfl)
        | (rw [set_vfo_B_off]; try rfl)
        | (rw [set_vfo_Main_on]; try rfl)
        | (rw [set_vfo_Sub_on]; try rfl)
  · intro priv ops
    induction ops generalizing priv with
    | nil => intro h; exact h
    | cons op ops ih =>
      intro h
      exact ih (runOp oracle cv priv op) (runOp_x25_mono oracle cv priv op h)

/-- Witness for C6: a dual-path selection sets the flag, and a mixed
operation sequence started with the flag set leaves it set. -/
theorem id5100_c6_x25_monotone_witness :
    (id5100_set_vfo oracleOK Vfo.A ⟨false, false⟩ Vfo.Main).priv.x25cmdfails =
      true ∧
    (runOps oracleOK Vfo.A ⟨false, true⟩
        [Op.setMode Rmode.AM, Op.getMode 0 5 2, Op.setVfo (Vfo.Mem 0),
         Op.setSplitVfo Vfo.A 1 Vfo.Sub]).x25cmdfails = true :=
  ⟨(id5100_c6_x25_monotone oracleOK Vfo.A).1 ⟨false, false⟩ Vfo.Main
      (Or.inr (Or.inr (Or.inl rfl))),
   (id5100_c6_x25_monotone oracleOK Vfo.A).2 ⟨false, true⟩ _ rfl⟩

/-- C7: for every requested VFO in {A, B, Main, Sub}, once the
dual-watch state is consistent (matching group, or the toggle
succeeded), exactly one `icom_transaction` is issued — last in the
trace — carrying `C_SET_VFO` with the Main physical code for A/Main
and the Sub physical code for B/Sub and an empty payload, and the
operation's return value is that transaction's result. -/
theorem id5100_c7_select_phys (oracle : Oracle) (cv : Vfo)
    (priv : IcomPriv) (vfo : Vfo)
    (hv : vfo = Vfo.A ∨ vfo = Vfo.B ∨ vfo = Vfo.Main ∨ vfo = Vfo.Sub)
    (hok : requiredDW vfo = priv.dual_watch ∨
           oracle (dwToggleTx (requiredDW vfo)) = RIG_OK) :
    (id5100_set_vfo oracle cv priv vfo).retval =
      oracle (selectTx (physSel vfo)) ∧
    (id5100_set_vfo oracle cv priv vfo).trace.getLast? =
      some (selectTx (physSel vfo)) ∧
    transactCount (id5100_set_vfo oracle cv priv vfo).trace = 1 := by
  obtain ⟨dw, x25⟩ := priv
  rcases hv with rfl | rfl | rfl | rfl <;> cases dw <;>
    first
      | (rw [set_vfo_A_off]; exact ⟨rfl, rfl, rfl⟩)
      | (rw [set_vfo_B_off]; exact ⟨rfl, rfl, rfl⟩)
      | (rw [set_vfo_Main_on]; exact ⟨rfl, rfl, rfl⟩)
      | (rw [set_vfo_Sub_on]; exact ⟨rfl, rfl, rfl⟩)
      | (rcases hok with he | hok
         · exact Bool.noConfusion he
         · simp only [requiredDW] at hok
           first
             | (rw [set_vfo_A_on, if_pos hok]; exact ⟨rfl, rfl, rfl⟩)
             | (rw [set_vfo_B_on, if_pos hok]; exact ⟨rfl, rfl, rfl⟩)
             | (rw [set_vfo_Main_off, if_pos hok]; exact ⟨rfl, rfl, rfl⟩)
             | (rw [set_vfo_Sub_off, if_pos hok]; exact ⟨rfl, rfl, rfl⟩))

/-- Witness for C7: selecting B with dual watch already off issues one
select with the Sub physical code and returns its result. -/
theorem id5100_c7_select_phys_witness :
    (id5100_set_vfo oracleOK Vfo.A ⟨false, false⟩ Vfo.B).retval =
      oracleOK (selectTx (physSel Vfo.B)) ∧
    (id5100_set_vfo oracleOK Vfo.A ⟨false, false⟩ Vfo.B).trace.getLast? =
      some (selectTx (physSel Vfo.B)) ∧
    transactCount
      (id5100_set_vfo oracleOK Vfo.A ⟨false, false⟩ Vfo.B).trace = 1 :=
  id5100_c7_select_phys oracleOK Vfo.A ⟨false, false⟩ Vfo.B
    (Or.inr (Or.inl rfl)) (Or.inl rfl)

/-- C8: set-mode on any value outside the five supported modes returns
`-RIG_EINVAL` and issues no transaction; each supported mode issues
exactly one `C_SET_MODE` transaction with its encoded
(mode code, sub-code) pair and returns its result. -/
theorem id5100_c8_set_mode_policy (oracle : Oracle) :
    (∀ n : Nat,
      id5100_set_mode oracle (Rmode.other n) = (-RIG_EINVAL, [])) ∧
    id5100_set_mode oracle Rmode.AM =
      (oracle (Transaction.transact C_SET_MODE 2 [1]),
       [Transaction.transact C_SET_MODE 2 [1]]) ∧
    id5100_set_mode oracle Rmode.AMN =
      (oracle (Transaction.transact C_SET_MODE 2 [2]),
       [Transaction.transact C_SET_MODE 2 [2]]) ∧
    id5100_set_mode oracle Rmode.FM =
      (oracle (Transaction.transact C_SET_MODE 5 [1]),
       [Transaction.transact C_SET_MODE 5 [1]]) ∧
    id5100_set_mode oracle Rmode.FMN =
      (oracle (Transaction.transact C_SET_MODE 5 [2]),
       [Transaction.transact C_SET_MODE 5 [2]]) ∧
    id5100_set_mode oracle Rmode.DSTAR =
      (oracle (Transaction.transact C_SET_MODE 0x17 [1]),
       [Transaction.transact C_SET_MODE 0x17 [1]]) :=
  ⟨fun _ => rfl, rfl, rfl, rfl, rfl, rfl⟩

/-- C9: a requested VFO outside {A, B, Main, Sub, Current} (e.g. a
memory VFO) is not rejected: no toggle is issued, the private state
(both flags) is untouched, and the one transaction issued is the
select with the Main physical code, whose result is returned. -/
theorem id5100_c9_other_vfo_passthrough (oracle : Oracle) (cv : Vfo)
    (priv : IcomPriv) (n : Nat) :
    id5100_set_vfo oracle cv priv (Vfo.Mem n) =
      ⟨oracle (selectTx S_MAIN), priv, [selectTx S_MAIN]⟩ :=
  set_vfo_Mem oracle cv priv n

/-- C10: the split/enabled argument of set-split-vfo is never read:
two calls differing only in it return identical results (same return
value, same final state, same transactions). -/
theorem id5100_c10_split_flag_independent (oracle : Oracle) (cv : Vfo)
    (priv : IcomPriv) (vfo : Vfo) (s1 s2 : Nat) (tx_vfo : Vfo) :
    id5100_set_split_vfo oracle cv priv vfo s1 tx_vfo =
      id5100_set_split_vfo oracle cv priv vfo s2 tx_vfo := rfl
